import Mathlib

/-!
Verification of the think-tank debate system core (schemas, memory, runner)
against its specification.  The Python source is shallowly embedded:

* Python dataclasses become Lean structures; Python `float` is modelled by `ℚ`
  (exact arithmetic), Python `int` fields by `Int`, nonnegative counters by
  `Nat`.
* Python dicts (for `to_dict` / `from_dict`) are modelled by a JSON-like value
  type `PyVal` with association-list dicts; `d.get(key, default)` becomes a
  lookup with the documented default.  A present value of a type that the typed
  record cannot hold also falls back to the default (a limitation of the typed
  embedding, not exercised by any claim).
* Fallible construction (Python `raise`) becomes `Option`.
* Wall-clock timestamps (`datetime.now()`) become explicit string parameters.
-/

namespace ThinkTank

/-- Python-dict value universe used by `to_dict` / `from_dict`. -/
inductive PyVal where
  | s : String → PyVal
  | i : Int → PyVal
  | q : ℚ → PyVal
  | b : Bool → PyVal
  | list : List PyVal → PyVal
  | dict : List (String × PyVal) → PyVal
  | none : PyVal

/-- Association-list model of a Python dict (keys unique by construction). -/
abbrev PyDict := List (String × PyVal)

/-- Models Python `d.get(key)` membership lookup (first matching key). -/
def PyDict.get? : PyDict → String → Option PyVal
  | [], _ => Option.none
  | (k, v) :: rest, key => if k = key then some v else PyDict.get? rest key

/-- Models `d.get(key, default)` for a string-valued field. -/
def getStr (d : PyDict) (key dflt : String) : String :=
  match PyDict.get? d key with
  | some (.s x) => x
  | _ => dflt

/-- Models `d.get(key, default)` for an int-valued field. -/
def getInt (d : PyDict) (key : String) (dflt : Int) : Int :=
  match PyDict.get? d key with
  | some (.i x) => x
  | _ => dflt

/-- Models `d.get(key, default)` for a float-valued field (a stored Python int
is also a number, so it coerces). -/
def getRat (d : PyDict) (key : String) (dflt : ℚ) : ℚ :=
  match PyDict.get? d key with
  | some (.q x) => x
  | some (.i x) => (x : ℚ)
  | _ => dflt

/-- The string carried by a `PyVal`; non-strings (untypable in a string
field of the record) are modelled as `""`. -/
def strOfVal : PyVal → String
  | .s x => x
  | _ => ""

/-- Models `d.get(key, [])` for a list-of-strings field. -/
def getStrList (d : PyDict) (key : String) : List String :=
  match PyDict.get? d key with
  | some (.list vs) => vs.map strOfVal
  | _ => []

/-- Models `d.get(key, [])` for a field holding a list of sub-records: an
absent key yields the empty list, a present non-list raises (→ `none`). -/
def getEntryList (d : PyDict) (key : String) : Option (List PyVal) :=
  match PyDict.get? d key with
  | Option.none => some []
  | some (.list vs) => some vs
  | some _ => Option.none

/-- Models a Python list comprehension of fallible element parses: the first
element that raises makes the whole comprehension raise. -/
def parseList {α : Type} (f : PyVal → Option α) : List PyVal → Option (List α)
  | [] => some []
  | v :: vs =>
    match f v, parseList f vs with
    | some a, some rest => some (a :: rest)
    | _, _ => Option.none

-- ── Data model (schemas.py) ────────────────────────────────

/-- Embeds `Expert` from schemas.py. -/
structure Expert where
  id : String
  name : String
  title : String
  background : String := ""
  bias : String := ""
  lens : String := ""
  domain : String := ""
  deriving DecidableEq

/-- Embeds `Expert.display_title`. -/
def Expert.display_title (e : Expert) : String :=
  e.name ++ " (" ++ e.title ++ ")"

/-- Embeds `Evidence` from schemas.py. -/
structure Evidence where
  source : String
  quote : String := ""
  deriving DecidableEq

/-- Embeds `Claim` from schemas.py (confidence is a Python float → `ℚ`). -/
structure Claim where
  id : String
  text : String
  confidence : ℚ := 7/10
  evidence : List Evidence := []
  assumptions : List String := []
  stance : String := "neutral"
  deriving DecidableEq

/-- Embeds `Move` from schemas.py.  The `timestamp` default factory
(`datetime.now()`) is a caller-supplied string in this embedding. -/
structure Move where
  move_id : String
  agent_id : String
  agent_title : String
  round : Int
  move_type : String := "claim"
  content : String := ""
  claims : List Claim := []
  targets : List String := []
  timestamp : String := ""
  input_tokens : Int := 0
  output_tokens : Int := 0
  deriving DecidableEq

/-- Embeds `RoundSpec` from schemas.py. -/
structure RoundSpec where
  number : Int
  focus : String
  question : String
  agents : List String
  deriving DecidableEq

/-- Embeds `DebateSpec` from schemas.py. -/
structure DebateSpec where
  title : String
  context : String
  rounds : List RoundSpec
  synthesizer_prompt : String := ""

/-- Embeds `Panel` from schemas.py. -/
structure Panel where
  name : String
  description : String := ""
  experts : List Expert := []

/-- Embeds `Panel.get_expert`. -/
def Panel.get_expert (p : Panel) (expert_id : String) : Option Expert :=
  p.experts.find? (fun e => e.id == expert_id)

/-- Embeds `DebateState` from schemas.py. -/
structure DebateState where
  spec_title : String
  panel_name : String
  model : String
  synth_model : String
  num_experts : Int
  num_rounds : Int
  moves : List Move := []
  started_at : String := ""
  finished_at : String := ""
  total_input_tokens : Int := 0
  total_output_tokens : Int := 0
  deriving DecidableEq

/-- Embeds the `DebateState.total_claims` property:
`sum(len(m.claims) for m in self.moves)` as a left fold, like Python `sum`. -/
def DebateState.total_claims (s : DebateState) : Nat :=
  s.moves.foldl (fun acc m => acc + m.claims.length) 0

-- ── Serialization (to_dict) ────────────────────────────────

/-- Embeds `Evidence.to_dict` (`asdict`). -/
def Evidence.to_dict (e : Evidence) : PyDict :=
  [("source", .s e.source), ("quote", .s e.quote)]

/-- Embeds `Claim.to_dict`: `asdict` field order, evidence re-serialized. -/
def Claim.to_dict (c : Claim) : PyDict :=
  [("id", .s c.id),
   ("text", .s c.text),
   ("confidence", .q c.confidence),
   ("evidence", .list (c.evidence.map (fun e => .dict e.to_dict))),
   ("assumptions", .list (c.assumptions.map .s)),
   ("stance", .s c.stance)]

/-- Embeds `Move.to_dict`: `asdict` field order, claims re-serialized. -/
def Move.to_dict (m : Move) : PyDict :=
  [("move_id", .s m.move_id),
   ("agent_id", .s m.agent_id),
   ("agent_title", .s m.agent_title),
   ("round", .i m.round),
   ("move_type", .s m.move_type),
   ("content", .s m.content),
   ("claims", .list (m.claims.map (fun c => .dict c.to_dict))),
   ("targets", .list (m.targets.map .s)),
   ("timestamp", .s m.timestamp),
   ("input_tokens", .i m.input_tokens),
   ("output_tokens", .i m.output_tokens)]

/-- Embeds `DebateState.to_dict` with its literal key order, including the
derived `total_moves` and `total_claims` entries. -/
def DebateState.to_dict (s : DebateState) : PyDict :=
  [("spec_title", .s s.spec_title),
   ("panel_name", .s s.panel_name),
   ("model", .s s.model),
   ("synth_model", .s s.synth_model),
   ("num_experts", .i s.num_experts),
   ("num_rounds", .i s.num_rounds),
   ("total_moves", .i (s.moves.length : Int)),
   ("total_claims", .i (s.total_claims : Int)),
   ("total_input_tokens", .i s.total_input_tokens),
   ("total_output_tokens", .i s.total_output_tokens),
   ("started_at", .s s.started_at),
   ("finished_at", .s s.finished_at),
   ("moves", .list (s.moves.map (fun m => .dict m.to_dict)))]

-- ── Deserialization (from_dict) ────────────────────────────

/-- Embeds `Evidence(**e)`: keyword expansion succeeds iff the keys are a
subset of {source, quote} containing the required `source`. -/
def Evidence.from_kwargs (e : PyDict) : Option Evidence :=
  let keys := e.map Prod.fst
  if keys.all (fun k => k == "source" || k == "quote") && keys.contains "source"
  then some { source := getStr e "source" "", quote := getStr e "quote" "" }
  else Option.none

/-- An evidence entry must be a dict for `Evidence(**e)` to be meaningful. -/
def Evidence.of_val : PyVal → Option Evidence
  | .dict e => Evidence.from_kwargs e
  | _ => Option.none

/-- Embeds one iteration of the claim comprehension inside `Move.from_dict`:
a non-dict entry raises (`c.get` on a non-dict). -/
def Claim.of_val : PyVal → Option Claim
  | .dict c =>
    match getEntryList c "evidence" with
    | Option.none => Option.none
    | some evs =>
      match parseList Evidence.of_val evs with
      | Option.none => Option.none
      | some evidence =>
        some { id := getStr c "id" ""
               text := getStr c "text" ""
               confidence := getRat c "confidence" (7/10)
               evidence := evidence
               assumptions := getStrList c "assumptions"
               stance := getStr c "stance" "neutral" }
  | _ => Option.none

/-- Embeds `Move.from_dict`. -/
def Move.from_dict (d : PyDict) : Option Move :=
  match getEntryList d "claims" with
  | Option.none => Option.none
  | some cs =>
    match parseList Claim.of_val cs with
    | Option.none => Option.none
    | some claims =>
      some { move_id := getStr d "move_id" ""
             agent_id := getStr d "agent_id" ""
             agent_title := getStr d "agent_title" ""
             round := getInt d "round" 0
             move_type := getStr d "move_type" "claim"
             content := getStr d "content" ""
             claims := claims
             targets := getStrList d "targets"
             timestamp := getStr d "timestamp" ""
             input_tokens := getInt d "input_tokens" 0
             output_tokens := getInt d "output_tokens" 0 }

/-- A move entry in the `moves` list must be a dict. -/
def Move.of_val : PyVal → Option Move
  | .dict d => Move.from_dict d
  | _ => Option.none

/-- Embeds `DebateState.from_dict`. -/
def DebateState.from_dict (d : PyDict) : Option DebateState :=
  match getEntryList d "moves" with
  | Option.none => Option.none
  | some ms =>
    match parseList Move.of_val ms with
    | Option.none => Option.none
    | some moves =>
      some { spec_title := getStr d "spec_title" ""
             panel_name := getStr d "panel_name" ""
             model := getStr d "model" ""
             synth_model := getStr d "synth_model" ""
             num_experts := getInt d "num_experts" 0
             num_rounds := getInt d "num_rounds" 0
             moves := moves
             started_at := getStr d "started_at" ""
             finished_at := getStr d "finished_at" ""
             total_input_tokens := getInt d "total_input_tokens" 0
             total_output_tokens := getInt d "total_output_tokens" 0 }

-- ── Self-development models (schemas.py) ───────────────────

/-- Embeds `Lesson` from schemas.py. -/
structure Lesson where
  id : String
  text : String
  source_debate : String
  source_round : Int := 0
  category : String := ""
  confidence : ℚ := 8/10
  created_at : String := ""
  deriving DecidableEq

/-- Embeds `Forecast` from schemas.py (probability is a float → `ℚ`). -/
structure Forecast where
  id : String
  text : String
  probability : ℚ
  deadline : String
  source_debate : String
  source_claim_id : String := ""
  resolved : Bool := false
  outcome : Option Bool := Option.none
  resolved_at : String := ""
  created_at : String := ""
  deriving DecidableEq

/-- Embeds the `Forecast.brier_score` property: `None` unless resolved with a
non-`None` outcome, else `(probability - actual)**2`. -/
def Forecast.brier_score (f : Forecast) : Option ℚ :=
  match f.resolved, f.outcome with
  | true, some o => some ((f.probability - (if o then 1 else 0)) ^ 2)
  | _, _ => Option.none

/-- Embeds `ExpertPerformance` from schemas.py.  The integer fields hold only
nonnegative counters in the source (defaults 0, increments by list lengths),
so they are modelled by `Nat`. -/
structure ExpertPerformance where
  expert_id : String
  debates_participated : Nat := 0
  total_claims : Nat := 0
  avg_confidence : ℚ := 0
  challenges_received : Nat := 0
  challenges_made : Nat := 0
  deriving DecidableEq

-- ── Memory Manager (memory.py) ─────────────────────────────

/-- Embeds `MemoryManager.load_lessons`: bootstrap seed lessons (if any)
followed by learned lessons.  An absent file is the empty list. -/
def load_lessons (bootstrap learned : List Lesson) : List Lesson :=
  bootstrap ++ learned

/-- One line of the memory context block: `f"- [{l.category}] {l.text}"`. -/
def lessonLine (l : Lesson) : String :=
  "- [" ++ l.category ++ "] " ++ l.text

/-- Python slice `l[-n:]`. -/
def takeLast {α : Type} (n : Nat) (l : List α) : List α :=
  l.drop (l.length - n)

/-- Embeds `MemoryManager.load_context`: empty collection gives `""`;
otherwise one line per lesson of the `lessons[-20:]` slice, accumulated in a
loop and joined with newlines. -/
def load_context (bootstrap learned : List Lesson) : String :=
  let lessons := load_lessons bootstrap learned
  if lessons.isEmpty then ""
  else
    String.intercalate "\n"
      ((takeLast 20 lessons).foldl (fun parts l => parts ++ [lessonLine l]) [])

/-- Rendering that follows the spec sentence "most-recent-first within that
slice" literally: the tail slice reversed before rendering.  Used only to
compare the implementation's ordering against the spec's words. -/
def load_context_spec_order (bootstrap learned : List Lesson) : String :=
  let lessons := load_lessons bootstrap learned
  if lessons.isEmpty then ""
  else
    String.intercalate "\n" (((takeLast 20 lessons).reverse).map lessonLine)

/-- Embeds `MemoryManager.resolve_forecast` on the loaded collection: mutate
the first forecast whose id matches (set resolved/outcome/resolved_at), then
`break`; no match leaves the list unchanged.  `now` stands for
`datetime.now().isoformat()`. -/
def resolveForecast : List Forecast → String → Bool → String → List Forecast
  | [], _, _, _ => []
  | f :: fs, fid, oc, now =>
    if f.id = fid then
      { f with resolved := true, outcome := some oc, resolved_at := now } :: fs
    else
      f :: resolveForecast fs fid oc now

-- ── Panel performance update (memory.py) ───────────────────

/-- Python dict assignment `d[k] = v` on an association list: replaces the
value of an existing key, else appends. -/
def dictInsert (d : List (String × String)) (k v : String) : List (String × String) :=
  if d.any (fun kv => kv.1 == k) then
    d.map (fun kv => if kv.1 == k then (k, v) else kv)
  else d ++ [(k, v)]

/-- Embeds the `all_targets` index of `update_panel_performance`: for every
move of the whole state and every target id of that move, map the target id to
`move.agent_id`. -/
def buildAllTargets (moves : List Move) : List (String × String) :=
  moves.foldl (fun acc m => m.targets.foldl (fun a t => dictInsert a t m.agent_id) acc) []

/-- Key membership in the `all_targets` index (`claim.id in all_targets`). -/
def targetsKey (allT : List (String × String)) (cid : String) : Bool :=
  allT.any (fun kv => kv.1 == cid)

/-- Python `sum(c.confidence for c in move.claims)`. -/
def confSum (claims : List Claim) : ℚ :=
  claims.foldl (fun acc c => acc + c.confidence) 0

/-- Embeds the body of the per-move loop of `update_panel_performance`
(lines incrementing one `ExpertPerformance` record from one move). -/
def processMove (allT : List (String × String)) (p : ExpertPerformance) (m : Move) :
    ExpertPerformance :=
  let p := { p with debates_participated := p.debates_participated + 1 }
  let n_claims := m.claims.length
  let p := { p with total_claims := p.total_claims + n_claims }
  let p :=
    if n_claims > 0 then
      let avg_conf := confSum m.claims / (n_claims : ℚ)
      let total := p.total_claims
      let prev := total - n_claims
      if total > 0 then
        { p with avg_confidence :=
            (p.avg_confidence * (prev : ℚ) + avg_conf * (n_claims : ℚ)) / (total : ℚ) }
      else p
    else p
  let p := { p with challenges_made := p.challenges_made + m.targets.length }
  { p with challenges_received :=
      p.challenges_received + (m.claims.filter (fun c => targetsKey allT c.id)).length }

/-- Lookup-or-create of `perf[eid]` (`ExpertPerformance(expert_id=eid)`). -/
def perfGet (perf : List (String × ExpertPerformance)) (eid : String) : ExpertPerformance :=
  match perf.find? (fun kv => kv.1 == eid) with
  | some kv => kv.2
  | Option.none => { expert_id := eid }

/-- Dict assignment `perf[eid] = p` on the association-list model. -/
def perfSet (perf : List (String × ExpertPerformance)) (eid : String)
    (p : ExpertPerformance) : List (String × ExpertPerformance) :=
  if perf.any (fun kv => kv.1 == eid) then
    perf.map (fun kv => if kv.1 == eid then (eid, p) else kv)
  else perf ++ [(eid, p)]

/-- Embeds `MemoryManager.update_panel_performance`: build the target index
over the whole move list first, then fold the per-move update over all moves,
skipping `error` and `synthesize` moves. -/
def updatePanelPerformance (perf : List (String × ExpertPerformance))
    (state : DebateState) : List (String × ExpertPerformance) :=
  let allT := buildAllTargets state.moves
  state.moves.foldl
    (fun acc m =>
      if m.move_type = "error" ∨ m.move_type = "synthesize" then acc
      else perfSet acc m.agent_id (processMove allT (perfGet acc m.agent_id) m))
    perf

-- ── Orchestrator (runner.py) ───────────────────────────────

/-- Embeds the `SYNTHESIZER_EXPERT` constant of runner.py. -/
def SYNTHESIZER_EXPERT : Expert :=
  { id := "synthesizer"
    name := "Synthesis Engine"
    title := "Debate Synthesizer"
    background := "Neutral facilitator that consolidates all expert contributions." }

/-- Embeds the `self.agents` dict of `DebateRunner.__init__`: every panel
expert keyed by id, then the synthesizer inserted last under the key
`"synthesizer"` (overriding any expert with that id). -/
def resolveAgent (panel : Panel) (agent_id : String) : Option Expert :=
  if agent_id = "synthesizer" then some SYNTHESIZER_EXPERT
  else panel.get_expert agent_id

/-- The external Agent Capability (`agent.make_move`): given the agent id, the
round spec, the prior moves and the allocated move id, it returns a `Move` or
raises (an error message).  The static problem context, memory context and
synthesizer prompt are constants of a run, absorbed into the function. -/
abbrev AgentBehavior := String → RoundSpec → List Move → String → Except String Move

/-- Python `f"{n:03d}"`: decimal digits, zero-padded to width 3. -/
def pad3 (n : Nat) : String :=
  let s := toString n
  if s.length < 3 then String.mk (List.replicate (3 - s.length) '0') ++ s else s

/-- The allocated move id `f"M{move_counter:03d}"`. -/
def moveIdFor (counter : Nat) : String :=
  "M" ++ pad3 counter

/-- The replacement move the runner appends when the Agent Capability raises:
`Move(move_id, agent_id, title, round, move_type="error",
content=f"Agent error: {e}")` with all other fields at their defaults (the
timestamp default factory is the supplied clock value). -/
def errorMove (move_id agent_id agent_title : String) (round : Int)
    (timestamp msg : String) : Move :=
  { move_id := move_id
    agent_id := agent_id
    agent_title := agent_title
    round := round
    move_type := "error"
    content := "Agent error: " ++ msg
    claims := []
    targets := []
    timestamp := timestamp
    input_tokens := 0
    output_tokens := 0 }

/-- The mutable loop state of `DebateRunner.run`: accumulated moves, running
token totals and the move counter. -/
structure RunAcc where
  moves : List Move
  total_input_tokens : Int
  total_output_tokens : Int
  move_counter : Nat
  deriving DecidableEq

/-- Embeds one iteration of the inner agent loop of `DebateRunner.run`: skip
an unresolved agent id (no move, counter unchanged); on success append the
returned move and add its tokens; on failure append the error move.  The
counter advances on both success and failure. -/
def runTurn (panel : Panel) (behavior : AgentBehavior) (clock : Nat → String)
    (rnd : RoundSpec) (acc : RunAcc) (agent_id : String) : RunAcc :=
  match resolveAgent panel agent_id with
  | Option.none => acc
  | some expert =>
    let move_id := moveIdFor acc.move_counter
    let title := expert.display_title
    match behavior agent_id rnd acc.moves move_id with
    | .ok move =>
      { moves := acc.moves ++ [move]
        total_input_tokens := acc.total_input_tokens + move.input_tokens
        total_output_tokens := acc.total_output_tokens + move.output_tokens
        move_counter := acc.move_counter + 1 }
    | .error e =>
      { moves := acc.moves ++
          [errorMove move_id agent_id title rnd.number (clock acc.move_counter) e]
        total_input_tokens := acc.total_input_tokens
        total_output_tokens := acc.total_output_tokens
        move_counter := acc.move_counter + 1 }

/-- Embeds one round of `DebateRunner.run`: the agent loop over `rnd.agents`. -/
def runRound (panel : Panel) (behavior : AgentBehavior) (clock : Nat → String)
    (acc : RunAcc) (rnd : RoundSpec) : RunAcc :=
  rnd.agents.foldl (runTurn panel behavior clock rnd) acc

/-- Embeds the full round loop of `DebateRunner.run`, starting from the empty
state with `move_counter = 1`. -/
def runDebate (spec : DebateSpec) (panel : Panel) (behavior : AgentBehavior)
    (clock : Nat → String) : RunAcc :=
  spec.rounds.foldl (runRound panel behavior clock) ⟨[], 0, 0, 1⟩

/-- The number of turns whose agent id resolves (panel expert or
synthesizer); unresolved ids are skipped by the runner. -/
def countTurns (spec : DebateSpec) (panel : Panel) : Nat :=
  (spec.rounds.map
    (fun r => (r.agents.filter (fun a => (resolveAgent panel a).isSome)).length)).sum

/-- Embeds `DebateRunner.run`'s final state assembly: the accumulated moves
and token totals on top of the header fields set at initialization. -/
def DebateRunner.run (spec : DebateSpec) (panel : Panel) (behavior : AgentBehavior)
    (clock : Nat → String) (model synth_model started finished : String) : DebateState :=
  let acc := runDebate spec panel behavior clock
  { spec_title := spec.title
    panel_name := panel.name
    model := model
    synth_model := synth_model
    num_experts := (panel.experts.length : Int)
    num_rounds := (spec.rounds.length : Int)
    moves := acc.moves
    started_at := started
    finished_at := finished
    total_input_tokens := acc.total_input_tokens
    total_output_tokens := acc.total_output_tokens }

-- ── Helper lemmas ──────────────────────────────────────────

theorem parseList_map {α : Type} (f : PyVal → Option α) (g : α → PyVal)
    (h : ∀ a, f (g a) = some a) (l : List α) : parseList f (l.map g) = some l := by
  induction l with
  | nil => rfl
  | cons a t ih => simp [parseList, h, ih]

theorem map_strOfVal_s (l : List String) : l.map (strOfVal ∘ PyVal.s) = l := by
  induction l with
  | nil => rfl
  | cons a t ih => simp [strOfVal, ih, Function.comp]

theorem evidence_of_val_to_dict (e : Evidence) :
    Evidence.of_val (.dict e.to_dict) = some e := by
  cases e
  rfl

theorem claim_of_val_to_dict (c : Claim) :
    Claim.of_val (.dict c.to_dict) = some c := by
  obtain ⟨i, t, cf, ev, asm, st⟩ := c
  simp [Claim.of_val, Claim.to_dict, getEntryList, PyDict.get?, getStr, getRat, getStrList,
        parseList_map Evidence.of_val _ evidence_of_val_to_dict, map_strOfVal_s]

theorem move_of_val_to_dict (m : Move) :
    Move.of_val (.dict m.to_dict) = some m := by
  obtain ⟨mid, aid, at_, rnd, mt, ct, cls, tg, ts, it, ot⟩ := m
  simp [Move.of_val, Move.from_dict, Move.to_dict, getEntryList, PyDict.get?, getStr,
        getInt, getStrList, parseList_map Claim.of_val _ claim_of_val_to_dict, map_strOfVal_s]

theorem foldl_claims_length (l : List Move) (a : Nat) :
    l.foldl (fun acc m => acc + m.claims.length) a =
      a + (l.map (fun m => m.claims.length)).sum := by
  induction l generalizing a with
  | nil => simp
  | cons m t ih => simp [ih, Nat.add_assoc]

-- ── C2: serialize/deserialize round trip ───────────────────

/-- C2: for every `DebateState` (any nested moves, claims and evidence),
`DebateState.from_dict (s.to_dict)` reproduces `s` exactly, in every field
including the order and contents of moves, claims and evidence. -/
theorem c2_state_roundtrip (s : DebateState) :
    DebateState.from_dict s.to_dict = some s := by
  obtain ⟨st, pn, md, sm, ne, nr, mv, sa, fa, ti, to_⟩ := s
  simp [DebateState.from_dict, DebateState.to_dict, getEntryList, PyDict.get?, getStr,
        getInt, parseList_map Move.of_val _ move_of_val_to_dict]

-- ── C3: total_claims is the sum of per-move claim counts ───

/-- C3: for every `DebateState`, the derived `total_claims` equals the sum
over all moves of the length of that move's claims list. -/
theorem c3_total_claims (s : DebateState) :
    s.total_claims = (s.moves.map (fun m => m.claims.length)).sum := by
  simp [DebateState.total_claims, foldl_claims_length]

-- ── C4: Brier score ────────────────────────────────────────

/-- C4: for every `Forecast`, `brier_score` is absent when `resolved` is
false or `outcome` is empty, and when resolved with an outcome it equals
`(probability - (1 if outcome else 0))^2`; in particular probability 0.9 with
outcome true gives 0.01 and with outcome false gives 0.81. -/
theorem c4_brier_score :
    (∀ f : Forecast,
      (f.resolved = false → f.brier_score = Option.none) ∧
      (f.outcome = Option.none → f.brier_score = Option.none) ∧
      (∀ b : Bool, f.resolved = true → f.outcome = some b →
        f.brier_score = some ((f.probability - (if b then 1 else 0)) ^ 2))) ∧
    (∀ f : Forecast, f.probability = 9/10 → f.resolved = true →
      (f.outcome = some true → f.brier_score = some (1/100)) ∧
      (f.outcome = some false → f.brier_score = some (81/100))) := by
  constructor
  · intro f
    refine ⟨?_, ?_, ?_⟩
    · intro h
      simp [Forecast.brier_score, h]
    · intro h
      simp [Forecast.brier_score, h]
    · intro b hr ho
      simp [Forecast.brier_score, hr, ho]
  · intro f hp hr
    constructor
    · intro ho
      simp [Forecast.brier_score, hr, ho, hp]
      norm_num
    · intro ho
      simp [Forecast.brier_score, hr, ho, hp]
      norm_num

/-- Witness for C4 at a concrete forecast: probability 0.9, resolved with
outcome true, Brier score 0.01. -/
theorem c4_brier_score_witness :
    Forecast.brier_score
      { id := "F1", text := "t", probability := 9/10, deadline := "d",
        source_debate := "s", resolved := true, outcome := some true } =
      some (1/100) :=
  (c4_brier_score.2
    { id := "F1", text := "t", probability := 9/10, deadline := "d",
      source_debate := "s", resolved := true, outcome := some true }
    rfl rfl).1 rfl

-- ── C5: running weighted mean of confidence ────────────────

theorem confSum_foldl (l : List Claim) (a : ℚ) :
    l.foldl (fun acc c => acc + c.confidence) a = a + (l.map Claim.confidence).sum := by
  induction l generalizing a with
  | nil => simp
  | cons c t ih => simp [ih, add_assoc]

theorem confSum_eq (l : List Claim) : confSum l = (l.map Claim.confidence).sum := by
  simp [confSum, confSum_foldl]

/-- C5: for every pre-existing performance record and every processed move
with `n_new > 0` claims, the updated `avg_confidence` is
`(old_avg * old_total + mean_of_move_confidences * n_new) / (old_total + n_new)`
with `old_total` the pre-update `total_claims`; a move with zero claims leaves
`avg_confidence` unchanged. -/
theorem c5_avg_confidence (allT : List (String × String)) (p : ExpertPerformance) (m : Move) :
    (0 < m.claims.length →
      (processMove allT p m).avg_confidence =
        (p.avg_confidence * (p.total_claims : ℚ) +
          ((m.claims.map Claim.confidence).sum / (m.claims.length : ℚ)) * (m.claims.length : ℚ)) /
          ((p.total_claims : ℚ) + (m.claims.length : ℚ))) ∧
    (m.claims.length = 0 → (processMove allT p m).avg_confidence = p.avg_confidence) := by
  constructor
  · intro h
    have h2 : 0 < p.total_claims + m.claims.length := Nat.add_pos_right _ h
    simp [processMove, h, h2, confSum_eq, Nat.add_sub_cancel]
  · intro h
    simp [processMove, h]

/-- Witness for C5: a fresh record and a one-claim move with the default
confidence 0.7 yield average confidence 0.7. -/
theorem c5_avg_confidence_witness :
    (processMove [] { expert_id := "e" }
      { move_id := "M1", agent_id := "e", agent_title := "E", round := 1,
        claims := [{ id := "C1", text := "t" }] }).avg_confidence = 7/10 := by
  have h := (c5_avg_confidence [] { expert_id := "e" }
    { move_id := "M1", agent_id := "e", agent_title := "E", round := 1,
      claims := [{ id := "C1", text := "t" }] }).1 (by decide)
  rw [h]
  norm_num

-- ── C6: challenges_received from the whole-state target index ──

theorem targetsKey_dictInsert (d : List (String × String)) (k v t : String) :
    targetsKey (dictInsert d k v) t = true ↔ (targetsKey d t = true ∨ k = t) := by
  by_cases hk : (d.any fun kv => kv.1 == k) = true
  · constructor
    · intro h
      rw [targetsKey, List.any_eq_true] at h
      obtain ⟨kv, hmem, hkt⟩ := h
      rw [dictInsert, if_pos hk, List.mem_map] at hmem
      obtain ⟨kv0, hmem0, rfl⟩ := hmem
      by_cases h0 : kv0.1 = k
      · right
        have hkt2 : ((if kv0.1 == k then (k, v) else kv0).1 == t) = true := hkt
        rw [if_pos (by simp [h0])] at hkt2
        simpa using hkt2
      · left
        rw [targetsKey, List.any_eq_true]
        refine ⟨kv0, hmem0, ?_⟩
        have hkt2 : ((if kv0.1 == k then (k, v) else kv0).1 == t) = true := hkt
        rwa [if_neg (by simp [h0])] at hkt2
    · intro h
      rw [targetsKey, List.any_eq_true]
      rcases h with h | rfl
      · rw [targetsKey, List.any_eq_true] at h
        obtain ⟨kv, hmem, hkv⟩ := h
        refine ⟨if kv.1 == k then (k, v) else kv, ?_, ?_⟩
        · rw [dictInsert, if_pos hk, List.mem_map]
          exact ⟨kv, hmem, rfl⟩
        · by_cases h0 : kv.1 = k
          · rw [if_pos (by simp [h0])]
            simp only [beq_iff_eq] at hkv ⊢
            rw [← h0]
            exact hkv
          · rw [if_neg (by simp [h0])]
            exact hkv
      · have hk2 := hk
        rw [List.any_eq_true] at hk2
        obtain ⟨kv, hmem, hkv⟩ := hk2
        refine ⟨(k, v), ?_, by simp⟩
        rw [dictInsert, if_pos hk, List.mem_map]
        exact ⟨kv, hmem, by simp [hkv]⟩
  · rw [targetsKey, dictInsert, if_neg hk, List.any_append]
    simp [targetsKey]

theorem targetsKey_foldTargets (ts : List String) (aid : String)
    (acc : List (String × String)) (t : String) :
    targetsKey (ts.foldl (fun a s => dictInsert a s aid) acc) t = true ↔
      (targetsKey acc t = true ∨ t ∈ ts) := by
  induction ts generalizing acc with
  | nil => simp
  | cons s rest ih =>
    rw [List.foldl_cons, ih, targetsKey_dictInsert]
    constructor
    · rintro ((h | rfl) | h)
      · exact Or.inl h
      · exact Or.inr (List.mem_cons_self _ _)
      · exact Or.inr (List.mem_cons_of_mem _ h)
    · rintro (h | h)
      · exact Or.inl (Or.inl h)
      · rcases List.mem_cons.mp h with rfl | h2
        · exact Or.inl (Or.inr rfl)
        · exact Or.inr h2

theorem targetsKey_buildAllTargets (moves : List Move) (t : String) :
    targetsKey (buildAllTargets moves) t = true ↔ ∃ m ∈ moves, t ∈ m.targets := by
  have general : ∀ (ms : List Move) (acc : List (String × String)),
      targetsKey (ms.foldl (fun a m => m.targets.foldl (fun a2 s => dictInsert a2 s m.agent_id) a) acc) t = true ↔
        (targetsKey acc t = true ∨ ∃ m ∈ ms, t ∈ m.targets) := by
    intro ms
    induction ms with
    | nil => simp
    | cons m rest ih =>
      intro acc
      simp only [List.foldl_cons, ih, targetsKey_foldTargets, List.mem_cons]
      constructor
      · rintro ((h | h) | ⟨m2, hm2, ht⟩)
        · exact Or.inl h
        · exact Or.inr ⟨m, Or.inl rfl, h⟩
        · exact Or.inr ⟨m2, Or.inr hm2, ht⟩
      · rintro (h | ⟨m2, (rfl | hm2), ht⟩)
        · exact Or.inl (Or.inl h)
        · exact Or.inl (Or.inr ht)
        · exact Or.inr ⟨m2, hm2, ht⟩
  rw [buildAllTargets, general]
  simp [targetsKey]

theorem processMove_challenges_received (allT : List (String × String))
    (p : ExpertPerformance) (m : Move) :
    (processMove allT p m).challenges_received =
      p.challenges_received + (m.claims.filter (fun c => targetsKey allT c.id)).length := by
  simp only [processMove]
  split <;> (first | rfl | (split <;> rfl))

/-- The two-move example state of the spec: `expert_a` makes two claims
(confidences 0.8 and 0.6), then `expert_b` makes one claim (confidence 0.9)
whose move targets `expert_a`'s first claim. -/
def c6ExampleState : DebateState :=
  { spec_title := "Test", panel_name := "Test", model := "t",
    synth_model := "t", num_experts := 2, num_rounds := 1,
    moves :=
      [{ move_id := "M1", agent_id := "expert_a", agent_title := "A", round := 1,
         claims := [{ id := "M1_C1", text := "Claim 1", confidence := 8/10 },
                    { id := "M1_C2", text := "Claim 2", confidence := 6/10 }],
         targets := [] },
       { move_id := "M2", agent_id := "expert_b", agent_title := "B", round := 1,
         claims := [{ id := "M2_C1", text := "Counter", confidence := 9/10 }],
         targets := ["M1_C1"] }] }

set_option maxHeartbeats 1000000 in
/-- C6: the claim-id-to-targeting index is built over the whole move list, so
a claim is counted in `challenges_received` exactly when its id is targeted by
any move of the same debate — including moves later than the claim's own move;
on the two-expert example, `expert_a` has `total_claims = 2` and the targeted
claim counted in `challenges_received`, `expert_b` has `total_claims = 1` and
`challenges_made = 1`. -/
theorem c6_challenges_received :
    (∀ (moves : List Move) (t : String),
      targetsKey (buildAllTargets moves) t = true ↔ ∃ m ∈ moves, t ∈ m.targets) ∧
    (∀ (allT : List (String × String)) (p : ExpertPerformance) (m : Move),
      (processMove allT p m).challenges_received =
        p.challenges_received + (m.claims.filter (fun c => targetsKey allT c.id)).length) ∧
    (updatePanelPerformance [] c6ExampleState =
      [("expert_a", { expert_id := "expert_a", debates_participated := 1, total_claims := 2,
                      avg_confidence := 7/10, challenges_received := 1, challenges_made := 0 }),
       ("expert_b", { expert_id := "expert_b", debates_participated := 1, total_claims := 1,
                      avg_confidence := 9/10, challenges_received := 0, challenges_made := 1 })]) := by
  refine ⟨targetsKey_buildAllTargets, processMove_challenges_received, ?_⟩
  simp only [updatePanelPerformance, c6ExampleState, buildAllTargets]
  simp only [show ("claim" = "error" ∨ "claim" = "synthesize") = False from by simp,
             if_false, List.foldl_cons, List.foldl_nil]
  simp [dictInsert, perfSet, perfGet, processMove, targetsKey, confSum]
  norm_num

-- ── C7: resolving an unknown forecast id is a no-op ────────

/-- C7: for every forecast collection and an id matching no forecast,
`resolve_forecast` leaves the collection exactly unchanged. -/
theorem c7_resolve_unknown_noop (fs : List Forecast) (fid : String) (oc : Bool)
    (now : String) (h : ∀ f ∈ fs, f.id ≠ fid) :
    resolveForecast fs fid oc now = fs := by
  induction fs with
  | nil => rfl
  | cons f rest ih =>
    rw [resolveForecast, if_neg (h f (List.mem_cons_self f rest))]
    rw [ih (fun g hg => h g (List.mem_cons_of_mem f hg))]

/-- Witness for C7: a one-forecast collection and a non-matching id. -/
theorem c7_resolve_unknown_noop_witness :
    resolveForecast
      [{ id := "F1", text := "t", probability := 1/2, deadline := "d",
         source_debate := "s" }] "F2" true "now" =
      [{ id := "F1", text := "t", probability := 1/2, deadline := "d",
         source_debate := "s" }] :=
  c7_resolve_unknown_noop
    [{ id := "F1", text := "t", probability := 1/2, deadline := "d",
       source_debate := "s" }] "F2" true "now" (by decide)

-- ── C8: double resolution is last-write-wins ───────────────

theorem resolveForecast_find? (fid : String) (o : Bool) (t : String) :
    ∀ (fs : List Forecast) (f : Forecast),
      fs.find? (fun g => g.id == fid) = some f →
      (resolveForecast fs fid o t).find? (fun g => g.id == fid) =
        some { f with resolved := true, outcome := some o, resolved_at := t }
  | [], _, hf => by simp at hf
  | g :: rest, f, hf => by
    by_cases h : g.id = fid
    · rw [List.find?_cons_of_pos _ (by simpa using h)] at hf
      injection hf with hf
      subst hf
      rw [resolveForecast, if_pos h]
      exact List.find?_cons_of_pos _ (by simpa using h)
    · rw [List.find?_cons_of_neg _ (by simpa using h)] at hf
      rw [resolveForecast, if_neg h]
      rw [List.find?_cons_of_neg _ (by simpa using h)]
      exact resolveForecast_find? fid o t rest f hf

/-- C8: resolving the same forecast id twice with different outcomes is not an
error: the composite equals a single resolution with the second outcome, and
the matching forecast ends with the second outcome, the second `resolved_at`,
and the Brier score computed from the second outcome. -/
theorem c8_last_write_wins (fs : List Forecast) (fid : String) (o1 o2 : Bool)
    (t1 t2 : String) :
    resolveForecast (resolveForecast fs fid o1 t1) fid o2 t2 =
      resolveForecast fs fid o2 t2 ∧
    (∀ f, fs.find? (fun g => g.id == fid) = some f →
      (resolveForecast (resolveForecast fs fid o1 t1) fid o2 t2).find?
          (fun g => g.id == fid) =
        some { f with resolved := true, outcome := some o2, resolved_at := t2 } ∧
      ({ f with resolved := true, outcome := some o2, resolved_at := t2 } : Forecast).brier_score =
        some ((f.probability - (if o2 then 1 else 0)) ^ 2)) := by
  have comp : resolveForecast (resolveForecast fs fid o1 t1) fid o2 t2 =
      resolveForecast fs fid o2 t2 := by
    induction fs with
    | nil => rfl
    | cons f rest ih =>
      by_cases h : f.id = fid
      · simp [resolveForecast, h]
      · simp only [resolveForecast, if_neg h]
        rw [ih]
  refine ⟨comp, ?_⟩
  intro f hf
  rw [comp]
  exact ⟨resolveForecast_find? fid o2 t2 fs f hf, rfl⟩

/-- Witness for C8: one forecast resolved first true then false ends resolved
with outcome false and the second timestamp. -/
theorem c8_last_write_wins_witness :
    (resolveForecast
      (resolveForecast
        [{ id := "F1", text := "t", probability := 9/10, deadline := "d",
           source_debate := "s" }] "F1" true "a") "F1" false "b").find?
        (fun g => g.id == "F1") =
      some { id := "F1", text := "t", probability := 9/10, deadline := "d",
             source_debate := "s", resolved := true, outcome := some false,
             resolved_at := "b" } :=
  ((c8_last_write_wins
      [{ id := "F1", text := "t", probability := 9/10, deadline := "d",
         source_debate := "s" }] "F1" true false "a" "b").2
    { id := "F1", text := "t", probability := 9/10, deadline := "d",
      source_debate := "s" } rfl).1

-- ── C9: load_context ordering ──────────────────────────────

theorem foldl_append_map {α : Type} (f : α → String) (l : List α) (acc : List String) :
    l.foldl (fun parts x => parts ++ [f x]) acc = acc ++ l.map f := by
  induction l generalizing acc with
  | nil => simp
  | cons a t ih => simp [ih]

/-- C9 counterexample: with an older lesson "Lesson A" and a newer lesson
"Lesson B", `load_context` renders the older lesson's line first — the slice
is emitted in chronological order, not most-recent-first as the claim
states. -/
theorem c9_counterexample :
    load_context []
      [{ id := "L1", text := "Lesson A", source_debate := "Test", category := "methodology" },
       { id := "L2", text := "Lesson B", source_debate := "Test", category := "domain" }] =
      "- [methodology] Lesson A\n- [domain] Lesson B" ∧
    load_context []
      [{ id := "L1", text := "Lesson A", source_debate := "Test", category := "methodology" },
       { id := "L2", text := "Lesson B", source_debate := "Test", category := "domain" }] ≠
      load_context_spec_order []
        [{ id := "L1", text := "Lesson A", source_debate := "Test", category := "methodology" },
         { id := "L2", text := "Lesson B", source_debate := "Test", category := "domain" }] := by
  constructor
  · rfl
  · decide

/-- C9 (amended): `load_context` returns the empty string when the combined
bootstrap+learned collection is empty, and otherwise one line per lesson
tagged with its category over the last-20 slice of the combined sequence, in
the sequence's own chronological order (most recent last). -/
theorem c9_amended (bootstrap learned : List Lesson) :
    (load_lessons bootstrap learned = [] → load_context bootstrap learned = "") ∧
    (load_lessons bootstrap learned ≠ [] →
      load_context bootstrap learned =
        String.intercalate "\n" ((takeLast 20 (bootstrap ++ learned)).map lessonLine)) := by
  constructor
  · intro h
    simp [load_context, h]
  · intro h
    rw [load_lessons] at h
    simp only [load_context, load_lessons, foldl_append_map, List.nil_append]
    rw [if_neg (by simpa using h)]

/-- Witness for C9 (amended) on the two-lesson example: both category tags and
both texts appear, in chronological order. -/
theorem c9_amended_witness :
    load_context []
      [{ id := "L1", text := "Lesson A", source_debate := "Test", category := "methodology" },
       { id := "L2", text := "Lesson B", source_debate := "Test", category := "domain" }] =
      String.intercalate "\n"
        ((takeLast 20
          (([] : List Lesson) ++
            [{ id := "L1", text := "Lesson A", source_debate := "Test", category := "methodology" },
             { id := "L2", text := "Lesson B", source_debate := "Test", category := "domain" }])).map
          lessonLine) :=
  (c9_amended []
    [{ id := "L1", text := "Lesson A", source_debate := "Test", category := "methodology" },
     { id := "L2", text := "Lesson B", source_debate := "Test", category := "domain" }]).2
    (by decide)

-- ── C10: deserialization of partial dicts ──────────────────

/-- Key structure under which `Evidence(**e)` succeeds: only source/quote
keys, and `source` present. -/
def evidenceEntryOk : PyVal → Bool
  | .dict e =>
    (e.map Prod.fst).all (fun k => k == "source" || k == "quote") &&
      (e.map Prod.fst).contains "source"
  | _ => false

/-- A claim entry parses iff it is a dict whose `evidence` value, when
present, is a list of well-keyed evidence dicts. -/
def claimEntryOk : PyVal → Bool
  | .dict c =>
    match PyDict.get? c "evidence" with
    | Option.none => true
    | some (.list vs) => vs.all evidenceEntryOk
    | some _ => false
  | _ => false

/-- A move dict parses iff its `claims` value, when present, is a list of
parsable claim entries. -/
def moveDictOk (d : PyDict) : Bool :=
  match PyDict.get? d "claims" with
  | Option.none => true
  | some (.list vs) => vs.all claimEntryOk
  | some _ => false

/-- A move entry of a state's `moves` list must be a parsable move dict. -/
def moveEntryOk : PyVal → Bool
  | .dict d => moveDictOk d
  | _ => false

/-- A state dict parses iff its `moves` value, when present, is a list of
parsable move entries. -/
def stateDictOk (d : PyDict) : Bool :=
  match PyDict.get? d "moves" with
  | Option.none => true
  | some (.list vs) => vs.all moveEntryOk
  | some _ => false

theorem parseList_isSome {α : Type} (f : PyVal → Option α) (p : PyVal → Bool)
    (h : ∀ v, p v = true → (f v).isSome = true) :
    ∀ vs : List PyVal, (∀ v ∈ vs, p v = true) → (parseList f vs).isSome = true := by
  intro vs
  induction vs with
  | nil => intro _; rfl
  | cons v rest ih =>
    intro hall
    have h1 := h v (hall v (List.mem_cons_self v rest))
    have h2 := ih (fun u hu => hall u (List.mem_cons_of_mem v hu))
    cases hfv : f v with
    | none => rw [hfv] at h1; simp at h1
    | some a =>
      cases hrest : parseList f rest with
      | none => rw [hrest] at h2; simp at h2
      | some l => simp [parseList, hfv, hrest]

theorem evidenceEntryOk_isSome (v : PyVal) (h : evidenceEntryOk v = true) :
    (Evidence.of_val v).isSome = true := by
  cases v
  case dict e =>
    have h2 : ((e.map Prod.fst).all (fun k => k == "source" || k == "quote") &&
        (e.map Prod.fst).contains "source") = true := h
    simp only [Evidence.of_val, Evidence.from_kwargs, h2]
    simp
  all_goals simp [evidenceEntryOk] at h

theorem claimEntryOk_isSome (v : PyVal) (h : claimEntryOk v = true) :
    (Claim.of_val v).isSome = true := by
  cases v
  case dict c =>
    rw [Claim.of_val, getEntryList]
    cases hg : PyDict.get? c "evidence" with
    | none => simp [parseList]
    | some val =>
      have h2 : (match PyDict.get? c "evidence" with
          | Option.none => true
          | some (.list vs) => vs.all evidenceEntryOk
          | some _ => false) = true := h
      rw [hg] at h2
      cases val <;> simp at h2
      case list vs =>
        have hsome := parseList_isSome Evidence.of_val evidenceEntryOk
          evidenceEntryOk_isSome vs h2
        cases hp : parseList Evidence.of_val vs with
        | none => rw [hp] at hsome; simp at hsome
        | some evs => simp [hp]
  all_goals simp [claimEntryOk] at h

theorem moveDictOk_isSome (d : PyDict) (h : moveDictOk d = true) :
    (Move.from_dict d).isSome = true := by
  rw [Move.from_dict, getEntryList]
  cases hg : PyDict.get? d "claims" with
  | none => simp [parseList]
  | some val =>
    rw [moveDictOk, hg] at h
    cases val <;> simp at h
    case list vs =>
      have hsome := parseList_isSome Claim.of_val claimEntryOk claimEntryOk_isSome vs h
      cases hp : parseList Claim.of_val vs with
      | none => rw [hp] at hsome; simp at hsome
      | some cs => simp [hp]

theorem moveEntryOk_isSome (v : PyVal) (h : moveEntryOk v = true) :
    (Move.of_val v).isSome = true := by
  cases v
  case dict d => exact moveDictOk_isSome d h
  all_goals simp [moveEntryOk] at h

theorem stateDictOk_isSome (d : PyDict) (h : stateDictOk d = true) :
    (DebateState.from_dict d).isSome = true := by
  rw [DebateState.from_dict, getEntryList]
  cases hg : PyDict.get? d "moves" with
  | none => simp [parseList]
  | some val =>
    rw [stateDictOk, hg] at h
    cases val <;> simp at h
    case list vs =>
      have hsome := parseList_isSome Move.of_val moveEntryOk moveEntryOk_isSome vs h
      cases hp : parseList Move.of_val vs with
      | none => rw [hp] at hsome; simp at hsome
      | some ms => simp [hp]

/-- C10 counterexample: a claim entry whose evidence list contains the empty
dict makes deserialization fail (Python `Evidence(**{})` raises a missing
required argument error), for `Move.from_dict` and `DebateState.from_dict`
alike — so deserialization can fail because a field is missing. -/
theorem c10_counterexample :
    Move.from_dict [("claims", .list [.dict [("evidence", .list [.dict []])]])] =
      Option.none ∧
    DebateState.from_dict
      [("moves", .list [.dict [("claims", .list [.dict [("evidence", .list [.dict []])]])]])] =
      Option.none :=
  ⟨rfl, rfl⟩

/-- C10 (amended): an absent key never makes deserialization fail — the empty
dict yields the record with every documented default — and `from_dict`
succeeds for every dict whose claim/move entries are dicts, whose
claims/evidence/moves values (when present) are lists, and whose evidence
entries carry the required `source` key (with no keys beyond source/quote);
only such a nested evidence entry missing `source` (or a malformed nested
entry) can make deserialization fail. -/
theorem c10_amended :
    (Move.from_dict [] =
      some { move_id := "", agent_id := "", agent_title := "", round := 0,
             move_type := "claim", content := "", claims := [], targets := [],
             timestamp := "", input_tokens := 0, output_tokens := 0 }) ∧
    (DebateState.from_dict [] =
      some { spec_title := "", panel_name := "", model := "", synth_model := "",
             num_experts := 0, num_rounds := 0, moves := [], started_at := "",
             finished_at := "", total_input_tokens := 0, total_output_tokens := 0 }) ∧
    (∀ d : PyDict, moveDictOk d = true → (Move.from_dict d).isSome = true) ∧
    (∀ d : PyDict, stateDictOk d = true → (DebateState.from_dict d).isSome = true) :=
  ⟨rfl, rfl, moveDictOk_isSome, stateDictOk_isSome⟩

/-- Witness for C10 (amended): a dict carrying only a `move_id` key and a
well-keyed evidence entry deserializes successfully. -/
theorem c10_amended_witness :
    (Move.from_dict
      [("move_id", .s "M7"),
       ("claims", .list [.dict [("evidence", .list [.dict [("source", .s "S1")]])]])]).isSome =
      true :=
  c10_amended.2.2.1
    [("move_id", .s "M7"),
     ("claims", .list [.dict [("evidence", .list [.dict [("source", .s "S1")]])]])]
    (by decide)

-- ── C1: per-turn failure isolation in the runner ───────────

theorem runTurn_moves_length (panel : Panel) (behavior : AgentBehavior)
    (clock : Nat → String) (rnd : RoundSpec) (acc : RunAcc) (aid : String) :
    (runTurn panel behavior clock rnd acc aid).moves.length =
      acc.moves.length + (if (resolveAgent panel aid).isSome then 1 else 0) := by
  cases hres : resolveAgent panel aid with
  | none => simp [runTurn, hres]
  | some ex =>
    cases hb : behavior aid rnd acc.moves (moveIdFor acc.move_counter) with
    | ok mv => simp [runTurn, hres, hb]
    | error e => simp [runTurn, hres, hb]

theorem runRound_moves_length (panel : Panel) (behavior : AgentBehavior)
    (clock : Nat → String) (rnd : RoundSpec) :
    ∀ (agents : List String) (acc : RunAcc),
      (agents.foldl (runTurn panel behavior clock rnd) acc).moves.length =
        acc.moves.length +
          (agents.filter (fun a => (resolveAgent panel a).isSome)).length := by
  intro agents
  induction agents with
  | nil => intro acc; simp
  | cons a rest ih =>
    intro acc
    rw [List.foldl_cons, ih, runTurn_moves_length, List.filter_cons]
    by_cases h : (resolveAgent panel a).isSome <;> simp [h]
    all_goals omega

theorem runDebate_moves_length (spec : DebateSpec) (panel : Panel)
    (behavior : AgentBehavior) (clock : Nat → String) :
    (runDebate spec panel behavior clock).moves.length = countTurns spec panel := by
  have general : ∀ (rounds : List RoundSpec) (acc : RunAcc),
      (rounds.foldl (runRound panel behavior clock) acc).moves.length =
        acc.moves.length +
          (rounds.map
            (fun r => (r.agents.filter (fun a => (resolveAgent panel a).isSome)).length)).sum := by
    intro rounds
    induction rounds with
    | nil => intro acc; simp
    | cons r rest ih =>
      intro acc
      rw [List.foldl_cons, ih]
      rw [show runRound panel behavior clock acc r =
            r.agents.foldl (runTurn panel behavior clock r) acc from rfl]
      rw [runRound_moves_length]
      simp [Nat.add_assoc]
  rw [runDebate, countTurns, general]
  simp

set_option maxHeartbeats 1000000 in
/-- C1: a failure raised by the Agent Capability never aborts the round or
the run: the runner appends a replacement move with `move_type = "error"`, an
empty claims list and content describing the failure, advances the move
counter, and continues; the number of recorded moves always equals the number
of resolvable turns regardless of failures; and a run with two agents in
round 1 whose second agent raises still records two moves for round 1 (one
normal, one error-typed) and still executes round 2. -/
theorem c1_error_isolation :
    (∀ (panel : Panel) (behavior : AgentBehavior) (clock : Nat → String)
        (rnd : RoundSpec) (acc : RunAcc) (aid : String) (ex : Expert) (e : String),
      resolveAgent panel aid = some ex →
      behavior aid rnd acc.moves (moveIdFor acc.move_counter) = .error e →
      runTurn panel behavior clock rnd acc aid =
        { acc with
            moves := acc.moves ++
              [errorMove (moveIdFor acc.move_counter) aid ex.display_title rnd.number
                (clock acc.move_counter) e]
            move_counter := acc.move_counter + 1 }) ∧
    (∀ (spec : DebateSpec) (panel : Panel) (behavior : AgentBehavior)
        (clock : Nat → String),
      (runDebate spec panel behavior clock).moves.length = countTurns spec panel) ∧
    (∀ (panel : Panel) (behavior : AgentBehavior) (clock : Nat → String)
        (r1 r2 : RoundSpec) (a1 a2 : String) (ex1 ex2 : Expert) (m1 : Move)
        (e : String) (m3 : Move) (spec : DebateSpec),
      spec.rounds = [r1, r2] → r1.agents = [a1, a2] → r2.agents = [a1] →
      resolveAgent panel a1 = some ex1 → resolveAgent panel a2 = some ex2 →
      behavior a1 r1 [] "M001" = .ok m1 →
      behavior a2 r1 [m1] "M002" = .error e →
      behavior a1 r2 [m1, errorMove "M002" a2 ex2.display_title r1.number (clock 2) e]
          "M003" = .ok m3 →
      (runDebate spec panel behavior clock).moves =
        [m1, errorMove "M002" a2 ex2.display_title r1.number (clock 2) e, m3]) := by
  refine ⟨?_, runDebate_moves_length, ?_⟩
  · intro panel behavior clock rnd acc aid ex e hres hb
    simp [runTurn, hres, hb]
  · intro panel behavior clock r1 r2 a1 a2 ex1 ex2 m1 e m3 spec
    intro hspec hr1 hr2 hres1 hres2 hb1 hb2 hb3
    have hm1 : moveIdFor 1 = "M001" := rfl
    have hm2 : moveIdFor 2 = "M002" := rfl
    have hm3 : moveIdFor 3 = "M003" := rfl
    simp only [runDebate, hspec, List.foldl_cons, List.foldl_nil, runRound, hr1, hr2]
    simp only [List.foldl_cons, List.foldl_nil, runTurn, hres1, hres2]
    simp [hm1, hm2, hm3, hb1, hb2, hb3]

/-- Witness for C1: a concrete two-expert panel whose second agent always
raises; the run records the normal move, the error move, and the round-2
move. -/
theorem c1_error_isolation_witness :
    (runDebate
      { title := "T", context := "c",
        rounds := [{ number := 1, focus := "f", question := "q", agents := ["e1", "e2"] },
                   { number := 2, focus := "g", question := "q2", agents := ["e1"] }] }
      { name := "P", experts := [{ id := "e1", name := "N1", title := "T1" },
                                 { id := "e2", name := "N2", title := "T2" }] }
      (fun aid rnd _ mid =>
        if aid = "e2" then .error "boom"
        else .ok { move_id := mid, agent_id := aid, agent_title := "", round := rnd.number })
      (fun _ => "t")).moves =
      [{ move_id := "M001", agent_id := "e1", agent_title := "", round := 1 },
       errorMove "M002" "e2" "N2 (T2)" 1 "t" "boom",
       { move_id := "M003", agent_id := "e1", agent_title := "", round := 2 }] :=
  c1_error_isolation.2.2
    { name := "P", experts := [{ id := "e1", name := "N1", title := "T1" },
                               { id := "e2", name := "N2", title := "T2" }] }
    (fun aid rnd _ mid =>
      if aid = "e2" then .error "boom"
      else .ok { move_id := mid, agent_id := aid, agent_title := "", round := rnd.number })
    (fun _ => "t")
    { number := 1, focus := "f", question := "q", agents := ["e1", "e2"] }
    { number := 2, focus := "g", question := "q2", agents := ["e1"] }
    "e1" "e2"
    { id := "e1", name := "N1", title := "T1" }
    { id := "e2", name := "N2", title := "T2" }
    { move_id := "M001", agent_id := "e1", agent_title := "", round := 1 }
    "boom"
    { move_id := "M003", agent_id := "e1", agent_title := "", round := 2 }
    { title := "T", context := "c",
      rounds := [{ number := 1, focus := "f", question := "q", agents := ["e1", "e2"] },
                 { number := 2, focus := "g", question := "q2", agents := ["e1"] }] }
    rfl rfl rfl rfl rfl rfl rfl rfl

end ThinkTank
